import Mathlib

/-!
Shallow embedding of `src/icdl/models/build_backone.py`: the model factory
`create_model` and its caller `build_backbone`.

Python keyword-argument dictionaries are embedded as functions
`String → Option Val`, where `Option.none` means the key is absent and
`Val.none` is Python's `None` value.  External collaborators that live
outside this file's source (the model registry, `get_act_layer`, `get_norm`,
`comm.get_world_size`) are abstracted: the registry and module membership
become finite lists of names carried in an `Env`, the world size a natural
number in the same `Env`, and the two layer-lookup functions opaque
injective constructors of `Val`.  The model object produced by the registry
entrypoint is embedded as a `ModelCall` record of the exact constructor call
made (plus which checkpoint, if any, was loaded into it afterwards), since
the entrypoint itself is external code.
-/

/-- A Python value as it flows through the kwargs dictionary of
`create_model`.  `Val.none` is Python's `None`; `actLayer` and `normLayer`
are the opaque results of the external lookups `get_act_layer` / `get_norm`
applied to the argument value. -/
inductive Val where
  | none
  | vbool (b : Bool)
  | vnum (n : Int)
  | vstr (s : String)
  | actLayer (v : Val)
  | normLayer (v : Val)
deriving DecidableEq, Repr

/-- A Python kwargs dict: `Option.none` means the key is absent. -/
abbrev Kwargs := String → Option Val

namespace Kwargs

/-- The empty dict. -/
def empty : Kwargs := fun _ => Option.none

/-- `kwargs.pop(k, dflt)`: the popped value and the dict without `k`. -/
def pop (kw : Kwargs) (k : String) (dflt : Val) : Val × Kwargs :=
  ((kw k).getD dflt, fun j => if j = k then Option.none else kw j)

/-- `kwargs.pop(k, ...)` used purely for removal. -/
def erase (kw : Kwargs) (k : String) : Kwargs :=
  fun j => if j = k then Option.none else kw j

/-- `kwargs.get(k, dflt)`. -/
def get (kw : Kwargs) (k : String) (dflt : Val) : Val :=
  (kw k).getD dflt

/-- `kwargs[k] = v`. -/
def set (kw : Kwargs) (k : String) (v : Val) : Kwargs :=
  fun j => if j = k then some v else kw j

/-- The dict comprehension at line 68 of the source:
`kwargs = \x7bk: v for k, v in kwargs.items() if v is not None\x7d`. -/
def filterNotNone (kw : Kwargs) : Kwargs :=
  fun j => match kw j with
    | some Val.none => Option.none
    | o => o

end Kwargs

/-- Modelled from the spec: the external activation-layer lookup
`get_act_layer` from `icdl.models.layers` (not under the given sources) is
a string-to-layer lookup; it is abstracted as an opaque injective mapping
on values. -/
def get_act_layer (v : Val) : Val := Val.actLayer v

/-- Modelled from the spec: the external normalization-layer lookup
`get_norm` from `icdl.models.layers` (not under the given sources) is a
string-to-layer lookup; it is abstracted as an opaque injective mapping on
values. -/
def get_norm (v : Val) : Val := Val.normLayer v

/-- The external environment `create_model` consults:
`registered` embeds the registry predicate `is_model`,
`effModels` embeds `is_model_in_modules(name, ['efficientnet', 'mobilenetv3'])`,
and `worldSize` embeds `comm.get_world_size()`. -/
structure Env where
  registered : List String
  effModels : List String
  worldSize : Nat
deriving DecidableEq, Repr

/-- The constructor call made through `model_entrypoint`, standing in for
the externally-built model object.  `scriptable`, `exportable`, `no_jit`
record the layer configuration active at construction; `loadedCheckpoint`
records the path passed to `load_checkpoint` afterwards, if any. -/
structure ModelCall where
  entrypoint : String
  pretrained : Bool
  num_classes : Int
  in_chans : Int
  kwargs : Kwargs
  scriptable : Option Bool
  exportable : Option Bool
  no_jit : Option Bool
  loadedCheckpoint : Option String

/-- Lines 40-48 of the source, taken when the model is not in the
efficientnet / mobilenetv3 modules: drop the batch-norm tuning keys and
resolve `act_layer` (defaulting to `'relu'`) through `get_act_layer`. -/
def non_effnet_step (kwargs : Kwargs) : Kwargs :=
  let kw := ((kwargs.erase "bn_tf").erase "bn_momentum").erase "bn_eps"
  let p := kw.pop "act_layer" (Val.vstr "relu")
  p.2.set "act_layer" (get_act_layer p.1)

/-- Lines 51-56 of the source: pop `norm_layer` (defaulting to `'BN'`),
substitute `'SyncBN'` when the world size exceeds 1 and the requested name
is not already a SyncBN variant, and store the `get_norm` of the result. -/
def norm_layer_step (gpus : Nat) (kwargs : Kwargs) : Kwargs :=
  let p := kwargs.pop "norm_layer" (Val.vstr "BN")
  let norm_layer :=
    if gpus > 1 ∧
        ¬ ([Val.vstr "SyncBN", Val.vstr "nnSyncBN", Val.vstr "naiveSyncBN"].contains p.1) then
      Val.vstr "SyncBN"
    else p.1
  p.2.set "norm_layer" (get_norm norm_layer)

/-- Lines 59-63 of the source: pop the deprecated `drop_connect_rate` and,
when it is not `None` while `drop_path_rate` is absent or `None`, store it
as `drop_path_rate`. -/
def drop_connect_step (kwargs : Kwargs) : Kwargs :=
  let p := kwargs.pop "drop_connect_rate" Val.none
  if p.1 ≠ Val.none ∧ p.2.get "drop_path_rate" Val.none = Val.none then
    p.2.set "drop_path_rate" p.1
  else p.2

/-- Lines 38-68 of the source: the kwargs normalization performed by
`create_model` before the entrypoint call (batch-norm key removal and
activation-layer resolution for models outside the efficientnet /
mobilenetv3 modules, SyncBN substitution when the world size exceeds 1,
deprecated `drop_connect_rate` migration, and the final removal of
`None`-valued entries). -/
def normalize_kwargs (env : Env) (model_name : String) (kwargs : Kwargs) : Kwargs :=
  let is_efficientnet := env.effModels.contains model_name
  let kwargs1 := if is_efficientnet then kwargs else non_effnet_step kwargs
  let kwargs2 := norm_layer_step env.worldSize kwargs1
  let kwargs3 := drop_connect_step kwargs2
  kwargs3.filterNotNone

/-- Lines 9-80 of the source: `create_model`.  Raising `RuntimeError` is
embedded as `Except.error`; a successful return is the `ModelCall` record
of the entrypoint invocation. -/
def create_model (env : Env) (model_name : String) (pretrained : Bool)
    (num_classes : Int) (in_chans : Int) (checkpoint_path : String)
    (scriptable exportable no_jit : Option Bool) (kwargs : Kwargs) :
    Except String ModelCall :=
  let kwargsN := normalize_kwargs env model_name kwargs
  if env.registered.contains model_name then
    Except.ok
      { entrypoint := model_name
        pretrained := pretrained
        num_classes := num_classes
        in_chans := in_chans
        kwargs := kwargsN
        scriptable := scriptable
        exportable := exportable
        no_jit := no_jit
        loadedCheckpoint := if checkpoint_path ≠ "" then some checkpoint_path else Option.none }
  else
    Except.error ("Unknown model (" ++ model_name ++ ")")

/-- The `MODEL` section of the configuration object read by `build_backbone`. -/
structure ModelCfg where
  OPT : String
  BACKBONE : String
  CLASSES : Int
  BACKBONE_WEIGHTS : String
  NORM_LAYER : String
  ACTIVATE : String
  POOLING_LAYER : String

/-- The `TRAIN` section of the configuration object read by `build_backbone`. -/
structure TrainCfg where
  INPUT_CHANNEL : Int

/-- The configuration object read by `build_backbone`. -/
structure Cfg where
  MODEL : ModelCfg
  TRAIN : TrainCfg

/-- Lines 84-92 of the source: the `scriptable`, `exportable`, `no_jit`
flags `build_backbone` computes from `cfg.MODEL.OPT`, in that order. -/
def build_backbone_flags (cfg : Cfg) : Bool × Bool × Bool :=
  let scriptable := false
  let exportable := false
  let no_jit := false
  if cfg.MODEL.OPT = "infer" then (true, exportable, true)
  else if cfg.MODEL.OPT = "jit" then (true, exportable, false)
  else (scriptable, exportable, no_jit)

/-- Lines 83-103 of the source: `build_backbone`. -/
def build_backbone (env : Env) (cfg : Cfg) : Except String ModelCall :=
  let f := build_backbone_flags cfg
  create_model env cfg.MODEL.BACKBONE true cfg.MODEL.CLASSES cfg.TRAIN.INPUT_CHANNEL
    cfg.MODEL.BACKBONE_WEIGHTS (some f.1) (some f.2.1) (some f.2.2)
    (((Kwargs.empty.set "norm_layer" (Val.vstr cfg.MODEL.NORM_LAYER)).set
        "act_layer" (Val.vstr cfg.MODEL.ACTIVATE)).set
      "global_pool" (Val.vstr cfg.MODEL.POOLING_LAYER))

example :
    (create_model ⟨["resnet18"], [], 1⟩ "resnet18" false 1000 3 "" Option.none Option.none
        Option.none Kwargs.empty).map (fun m => m.kwargs "act_layer") =
      Except.ok (some (Val.actLayer (Val.vstr "relu"))) := rfl

example :
    (create_model ⟨["resnet18"], [], 1⟩ "foo" false 1000 3 "" Option.none Option.none
        Option.none Kwargs.empty) = Except.error "Unknown model (foo)" := rfl

/-- Elimination principle for a successful `create_model` call: the name was
registered and the returned record is the entrypoint invocation on the
normalized kwargs, with the checkpoint loaded exactly for a non-empty path. -/
lemma create_model_ok {env : Env} {model_name : String} {pretrained : Bool}
    {num_classes in_chans : Int} {checkpoint_path : String}
    {scriptable exportable no_jit : Option Bool} {kwargs : Kwargs} {m : ModelCall}
    (h : create_model env model_name pretrained num_classes in_chans checkpoint_path
        scriptable exportable no_jit kwargs = Except.ok m) :
    env.registered.contains model_name = true ∧
      m = { entrypoint := model_name
            pretrained := pretrained
            num_classes := num_classes
            in_chans := in_chans
            kwargs := normalize_kwargs env model_name kwargs
            scriptable := scriptable
            exportable := exportable
            no_jit := no_jit
            loadedCheckpoint :=
              if checkpoint_path ≠ "" then some checkpoint_path else Option.none } := by
  unfold create_model at h
  split at h
  · cases h
    exact ⟨by assumption, rfl⟩
  · cases h

@[simp] lemma Kwargs.set_apply (kw : Kwargs) (k : String) (v : Val) (j : String) :
    kw.set k v j = if j = k then some v else kw j := rfl

@[simp] lemma Kwargs.erase_apply (kw : Kwargs) (k : String) (j : String) :
    kw.erase k j = if j = k then Option.none else kw j := rfl

@[simp] lemma Kwargs.pop_fst (kw : Kwargs) (k : String) (d : Val) :
    (kw.pop k d).1 = (kw k).getD d := rfl

@[simp] lemma Kwargs.pop_snd_apply (kw : Kwargs) (k : String) (d : Val) (j : String) :
    (kw.pop k d).2 j = if j = k then Option.none else kw j := rfl

@[simp] lemma Kwargs.get_eq (kw : Kwargs) (k : String) (d : Val) :
    kw.get k d = (kw k).getD d := rfl

@[simp] lemma Kwargs.filterNotNone_apply (kw : Kwargs) (j : String) :
    kw.filterNotNone j = if kw j = some Val.none then Option.none else kw j := by
  unfold Kwargs.filterNotNone
  rcases h : kw j with _ | v
  · simp [h]
  · cases v <;> simp [h]

/-- `non_effnet_step` leaves every key other than the three batch-norm keys
and `act_layer` unchanged. -/
lemma non_effnet_step_other (kw : Kwargs) (j : String) (h1 : j ≠ "bn_tf")
    (h2 : j ≠ "bn_momentum") (h3 : j ≠ "bn_eps") (h4 : j ≠ "act_layer") :
    non_effnet_step kw j = kw j := by
  simp [non_effnet_step, h1, h2, h3, h4]

/-- `norm_layer_step` leaves every key other than `norm_layer` unchanged. -/
lemma norm_layer_step_other (gpus : Nat) (kw : Kwargs) (j : String)
    (h : j ≠ "norm_layer") : norm_layer_step gpus kw j = kw j := by
  unfold norm_layer_step
  simp [h]

/-- `drop_connect_step` leaves every key other than `drop_connect_rate` and
`drop_path_rate` unchanged. -/
lemma drop_connect_step_other (kw : Kwargs) (j : String)
    (h1 : j ≠ "drop_connect_rate") (h2 : j ≠ "drop_path_rate") :
    drop_connect_step kw j = kw j := by
  unfold drop_connect_step
  split <;> simp [h1, h2]

/-- The value `norm_layer_step` stores under `norm_layer`. -/
lemma norm_layer_step_at (gpus : Nat) (kw : Kwargs) :
    norm_layer_step gpus kw "norm_layer" =
      some (get_norm
        (if gpus > 1 ∧
            ¬ ([Val.vstr "SyncBN", Val.vstr "nnSyncBN", Val.vstr "naiveSyncBN"].contains
                ((kw "norm_layer").getD (Val.vstr "BN"))) then
          Val.vstr "SyncBN"
        else (kw "norm_layer").getD (Val.vstr "BN"))) := by
  unfold norm_layer_step
  simp

/-- The value stored for `norm_layer` by `normalize_kwargs`, in terms of the
caller's kwargs: the SyncBN substitution rule applied to the requested value
(defaulting to `'BN'`), wrapped by `get_norm`. -/
lemma normalize_kwargs_norm_layer (env : Env) (model_name : String) (kw : Kwargs) :
    normalize_kwargs env model_name kw "norm_layer" =
      some (get_norm
        (if env.worldSize > 1 ∧
            ¬ ([Val.vstr "SyncBN", Val.vstr "nnSyncBN", Val.vstr "naiveSyncBN"].contains
                ((kw "norm_layer").getD (Val.vstr "BN"))) then
          Val.vstr "SyncBN"
        else (kw "norm_layer").getD (Val.vstr "BN"))) := by
  unfold normalize_kwargs
  have hkw1 : (if env.effModels.contains model_name then kw else non_effnet_step kw)
      "norm_layer" = kw "norm_layer" := by
    split
    · rfl
    · exact non_effnet_step_other kw _ (by decide) (by decide) (by decide) (by decide)
  rw [Kwargs.filterNotNone_apply,
    drop_connect_step_other _ _ (by decide) (by decide), norm_layer_step_at, hkw1]
  simp [get_norm]

/-- Nothing stored by `normalize_kwargs` is the value `None`: the final
dict comprehension removes every `None`-valued entry. -/
lemma Kwargs.filterNotNone_ne (kw : Kwargs) (j : String) :
    kw.filterNotNone j ≠ some Val.none := by
  rw [Kwargs.filterNotNone_apply]
  split
  · simp
  · assumption

/-- Nothing stored by `normalize_kwargs` is the value `None`. -/
lemma normalize_kwargs_not_none (env : Env) (model_name : String) (kw : Kwargs)
    (j : String) : normalize_kwargs env model_name kw j ≠ some Val.none := by
  unfold normalize_kwargs
  exact Kwargs.filterNotNone_ne _ _

/-- The value `non_effnet_step` stores under `act_layer`. -/
lemma non_effnet_step_act_layer (kw : Kwargs) :
    non_effnet_step kw "act_layer" =
      some (get_act_layer ((kw "act_layer").getD (Val.vstr "relu"))) := by
  unfold non_effnet_step
  simp

/-- For a model outside the efficientnet / mobilenetv3 modules,
`normalize_kwargs` stores the `get_act_layer` of the requested activation
(defaulting to `'relu'`) under `act_layer`. -/
lemma normalize_kwargs_act_layer (env : Env) (model_name : String) (kw : Kwargs)
    (hnot : env.effModels.contains model_name = false) :
    normalize_kwargs env model_name kw "act_layer" =
      some (get_act_layer ((kw "act_layer").getD (Val.vstr "relu"))) := by
  unfold normalize_kwargs
  rw [Kwargs.filterNotNone_apply,
    drop_connect_step_other _ _ (by decide) (by decide),
    norm_layer_step_other _ _ _ (by decide), hnot]
  simp only [Bool.false_eq_true, if_false, non_effnet_step_act_layer]
  simp [get_act_layer]

/-- For a model inside the efficientnet / mobilenetv3 modules, every key
other than `norm_layer`, `drop_connect_rate` and `drop_path_rate` reaches
the constructor exactly as supplied, except that a `None` value is removed
by the final filter. -/
lemma normalize_kwargs_passthrough (env : Env) (model_name : String) (kw : Kwargs)
    (j : String) (hin : env.effModels.contains model_name = true)
    (h1 : j ≠ "norm_layer") (h2 : j ≠ "drop_connect_rate")
    (h3 : j ≠ "drop_path_rate") :
    normalize_kwargs env model_name kw j =
      if kw j = some Val.none then Option.none else kw j := by
  unfold normalize_kwargs
  rw [Kwargs.filterNotNone_apply, drop_connect_step_other _ _ h2 h3,
    norm_layer_step_other _ _ _ h1, hin]
  simp

/-- For a model outside the efficientnet / mobilenetv3 modules, the three
batch-norm tuning keys are absent from the constructor kwargs. -/
lemma normalize_kwargs_bn_removed (env : Env) (model_name : String) (kw : Kwargs)
    (j : String) (hnot : env.effModels.contains model_name = false)
    (hj : j = "bn_tf" ∨ j = "bn_momentum" ∨ j = "bn_eps") :
    normalize_kwargs env model_name kw j = Option.none := by
  unfold normalize_kwargs
  have hstep : non_effnet_step kw j = Option.none := by
    unfold non_effnet_step
    rcases hj with h | h | h <;> subst h <;> simp
  rw [Kwargs.filterNotNone_apply]
  have h1 : j ≠ "norm_layer" := by rcases hj with h | h | h <;> subst h <;> decide
  have h2 : j ≠ "drop_connect_rate" := by rcases hj with h | h | h <;> subst h <;> decide
  have h3 : j ≠ "drop_path_rate" := by rcases hj with h | h | h <;> subst h <;> decide
  rw [drop_connect_step_other _ _ h2 h3, norm_layer_step_other _ _ _ h1, hnot]
  simp [hstep]

/-- `drop_connect_rate` itself is always popped and never reaches the
constructor. -/
lemma normalize_kwargs_drop_connect (env : Env) (model_name : String) (kw : Kwargs) :
    normalize_kwargs env model_name kw "drop_connect_rate" = Option.none := by
  unfold normalize_kwargs
  rw [Kwargs.filterNotNone_apply]
  have hstep : ∀ kw2 : Kwargs, drop_connect_step kw2 "drop_connect_rate" = Option.none := by
    intro kw2
    unfold drop_connect_step
    split <;> simp
  simp [hstep]

/-- The value `drop_connect_step` stores under `drop_path_rate`: the
deprecated-argument migration in terms of the incoming dict. -/
lemma drop_connect_step_dpr (kw : Kwargs) :
    drop_connect_step kw "drop_path_rate" =
      if (kw "drop_connect_rate").getD Val.none ≠ Val.none ∧
          (kw "drop_path_rate").getD Val.none = Val.none then
        some ((kw "drop_connect_rate").getD Val.none)
      else kw "drop_path_rate" := by
  unfold drop_connect_step
  split
  · next h =>
    rw [if_pos]
    · simp
    · simpa using h
  · next h =>
    rw [if_neg]
    · simp
    · simpa using h

/-- The value `normalize_kwargs` leaves under `drop_path_rate`, in terms of
the caller's `drop_connect_rate` and `drop_path_rate` entries. -/
lemma normalize_kwargs_dpr (env : Env) (model_name : String) (kw : Kwargs) :
    normalize_kwargs env model_name kw "drop_path_rate" =
      if (kw "drop_connect_rate").getD Val.none ≠ Val.none ∧
          (kw "drop_path_rate").getD Val.none = Val.none then
        some ((kw "drop_connect_rate").getD Val.none)
      else if kw "drop_path_rate" = some Val.none then Option.none
      else kw "drop_path_rate" := by
  unfold normalize_kwargs
  have hkw2 : ∀ j : String, j = "drop_connect_rate" ∨ j = "drop_path_rate" →
      norm_layer_step env.worldSize
          (if env.effModels.contains model_name then kw else non_effnet_step kw) j = kw j := by
    intro j hj
    have h1 : j ≠ "norm_layer" := by rcases hj with h | h <;> subst h <;> decide
    rw [norm_layer_step_other _ _ _ h1]
    split
    · rfl
    · rcases hj with h | h <;> subst h <;>
        exact non_effnet_step_other _ _ (by decide) (by decide) (by decide) (by decide)
  rw [Kwargs.filterNotNone_apply, drop_connect_step_dpr,
    hkw2 "drop_connect_rate" (Or.inl rfl), hkw2 "drop_path_rate" (Or.inr rfl)]
  split
  · next h =>
    simp [h.1]
  · rfl

/-- C1: if `model_name` is not registered, `create_model` raises
`RuntimeError('Unknown model (...)')` and no constructor call happens
(the embedding returns no `ModelCall`); if it is registered, the registry
entrypoint for `model_name` is invoked on the normalized arguments and no
error is raised. -/
theorem claim_C1 (env : Env) (model_name : String) (pretrained : Bool)
    (num_classes in_chans : Int) (checkpoint_path : String)
    (scriptable exportable no_jit : Option Bool) (kwargs : Kwargs) :
    (env.registered.contains model_name = false →
      create_model env model_name pretrained num_classes in_chans checkpoint_path
          scriptable exportable no_jit kwargs =
        Except.error ("Unknown model (" ++ model_name ++ ")")) ∧
    (env.registered.contains model_name = true →
      create_model env model_name pretrained num_classes in_chans checkpoint_path
          scriptable exportable no_jit kwargs =
        Except.ok
          { entrypoint := model_name
            pretrained := pretrained
            num_classes := num_classes
            in_chans := in_chans
            kwargs := normalize_kwargs env model_name kwargs
            scriptable := scriptable
            exportable := exportable
            no_jit := no_jit
            loadedCheckpoint :=
              if checkpoint_path ≠ "" then some checkpoint_path else Option.none }) := by
  constructor
  · intro h
    simp only [create_model]
    rw [if_neg (by rw [h]; decide)]
  · intro h
    simp only [create_model]
    rw [if_pos h]

/-- Witness for C1 at a one-entry registry: the unregistered name `foo`
errors, the registered name `resnet18` is dispatched. -/
theorem claim_C1_witness :
    create_model ⟨["resnet18"], [], 1⟩ "foo" false 1000 3 "" Option.none Option.none
        Option.none Kwargs.empty = Except.error ("Unknown model (" ++ "foo" ++ ")") ∧
    create_model ⟨["resnet18"], [], 1⟩ "resnet18" false 1000 3 "" Option.none Option.none
        Option.none Kwargs.empty =
      Except.ok
        { entrypoint := "resnet18"
          pretrained := false
          num_classes := 1000
          in_chans := 3
          kwargs := normalize_kwargs ⟨["resnet18"], [], 1⟩ "resnet18" Kwargs.empty
          scriptable := Option.none
          exportable := Option.none
          no_jit := Option.none
          loadedCheckpoint := if "" ≠ "" then some "" else Option.none } :=
  ⟨(claim_C1 ⟨["resnet18"], [], 1⟩ "foo" false 1000 3 "" Option.none Option.none Option.none
      Kwargs.empty).1 (by decide),
   (claim_C1 ⟨["resnet18"], [], 1⟩ "resnet18" false 1000 3 "" Option.none Option.none
      Option.none Kwargs.empty).2 (by decide)⟩

/-- C2: the constructor receives `norm_layer = get_norm('SyncBN')` when the
world size exceeds 1 and the requested name (defaulting to `'BN'`) is not a
SyncBN variant, and `get_norm` of the requested name otherwise. -/
theorem claim_C2 (env : Env) (model_name : String) (pretrained : Bool)
    (num_classes in_chans : Int) (checkpoint_path : String)
    (scriptable exportable no_jit : Option Bool) (kwargs : Kwargs) (m : ModelCall)
    (h : create_model env model_name pretrained num_classes in_chans checkpoint_path
        scriptable exportable no_jit kwargs = Except.ok m) :
    (env.worldSize > 1 ∧
        ¬ ([Val.vstr "SyncBN", Val.vstr "nnSyncBN", Val.vstr "naiveSyncBN"].contains
            ((kwargs "norm_layer").getD (Val.vstr "BN"))) →
      m.kwargs "norm_layer" = some (get_norm (Val.vstr "SyncBN"))) ∧
    (¬ (env.worldSize > 1 ∧
        ¬ ([Val.vstr "SyncBN", Val.vstr "nnSyncBN", Val.vstr "naiveSyncBN"].contains
            ((kwargs "norm_layer").getD (Val.vstr "BN")))) →
      m.kwargs "norm_layer" =
        some (get_norm ((kwargs "norm_layer").getD (Val.vstr "BN")))) := by
  obtain ⟨-, rfl⟩ := create_model_ok h
  refine ⟨fun hc => ?_, fun hc => ?_⟩
  · show normalize_kwargs env model_name kwargs "norm_layer" = _
    rw [normalize_kwargs_norm_layer, if_pos hc]
  · show normalize_kwargs env model_name kwargs "norm_layer" = _
    rw [normalize_kwargs_norm_layer, if_neg hc]

/-- Witness for C2: with world size 4 and no requested `norm_layer`, the
default `'BN'` is converted to `get_norm('SyncBN')`. -/
theorem claim_C2_witness :
    (create_model ⟨["m"], [], 4⟩ "m" false 1000 3 "" Option.none Option.none Option.none
        Kwargs.empty).map (fun mc => mc.kwargs "norm_layer") =
      Except.ok (some (get_norm (Val.vstr "SyncBN"))) := by
  have h : create_model ⟨["m"], [], 4⟩ "m" false 1000 3 "" Option.none Option.none Option.none
      Kwargs.empty =
      Except.ok
        { entrypoint := "m"
          pretrained := false
          num_classes := 1000
          in_chans := 3
          kwargs := normalize_kwargs ⟨["m"], [], 4⟩ "m" Kwargs.empty
          scriptable := Option.none
          exportable := Option.none
          no_jit := Option.none
          loadedCheckpoint := Option.none } := rfl
  rw [h]
  exact congrArg Except.ok
    ((claim_C2 ⟨["m"], [], 4⟩ "m" false 1000 3 "" Option.none Option.none Option.none
      Kwargs.empty _ h).1 (by decide))

/-- C3: for a registered name, a checkpoint is loaded into the constructed
model exactly when `checkpoint_path` is non-empty, and the value returned
is the model produced by the registry entrypoint. -/
theorem claim_C3 (env : Env) (model_name : String) (pretrained : Bool)
    (num_classes in_chans : Int) (checkpoint_path : String)
    (scriptable exportable no_jit : Option Bool) (kwargs : Kwargs) (m : ModelCall)
    (h : create_model env model_name pretrained num_classes in_chans checkpoint_path
        scriptable exportable no_jit kwargs = Except.ok m) :
    (checkpoint_path ≠ "" → m.loadedCheckpoint = some checkpoint_path) ∧
    (checkpoint_path = "" → m.loadedCheckpoint = Option.none) ∧
    m.entrypoint = model_name := by
  obtain ⟨-, rfl⟩ := create_model_ok h
  refine ⟨fun hc => ?_, fun hc => ?_, rfl⟩
  · show (if checkpoint_path ≠ "" then some checkpoint_path else Option.none) = _
    rw [if_pos hc]
  · show (if checkpoint_path ≠ "" then some checkpoint_path else Option.none) = _
    rw [if_neg (by simp [hc])]

/-- Witness for C3: a non-empty checkpoint path is loaded. -/
theorem claim_C3_witness :
    (create_model ⟨["m"], [], 1⟩ "m" false 1000 3 "weights.pth" Option.none Option.none
        Option.none Kwargs.empty).map (fun mc => mc.loadedCheckpoint) =
      Except.ok (some "weights.pth") := by
  have h : create_model ⟨["m"], [], 1⟩ "m" false 1000 3 "weights.pth" Option.none Option.none
      Option.none Kwargs.empty =
      Except.ok
        { entrypoint := "m"
          pretrained := false
          num_classes := 1000
          in_chans := 3
          kwargs := normalize_kwargs ⟨["m"], [], 1⟩ "m" Kwargs.empty
          scriptable := Option.none
          exportable := Option.none
          no_jit := Option.none
          loadedCheckpoint := some "weights.pth" } := rfl
  rw [h]
  exact congrArg Except.ok
    ((claim_C3 ⟨["m"], [], 1⟩ "m" false 1000 3 "weights.pth" Option.none Option.none
      Option.none Kwargs.empty _ h).1 (by decide))

/-- C4: a non-`None` `drop_connect_rate` is migrated to `drop_path_rate`
when the latter is absent or `None`, and discarded in favour of a supplied
non-`None` `drop_path_rate` otherwise; in both cases `drop_connect_rate`
itself never reaches the constructor. -/
theorem claim_C4 (env : Env) (model_name : String) (pretrained : Bool)
    (num_classes in_chans : Int) (checkpoint_path : String)
    (scriptable exportable no_jit : Option Bool) (kwargs : Kwargs) (m : ModelCall)
    (v : Val)
    (h : create_model env model_name pretrained num_classes in_chans checkpoint_path
        scriptable exportable no_jit kwargs = Except.ok m)
    (hv : kwargs "drop_connect_rate" = some v) (hvn : v ≠ Val.none) :
    ((kwargs "drop_path_rate" = Option.none ∨ kwargs "drop_path_rate" = some Val.none) →
      m.kwargs "drop_path_rate" = some v ∧ m.kwargs "drop_connect_rate" = Option.none) ∧
    (∀ w : Val, kwargs "drop_path_rate" = some w → w ≠ Val.none →
      m.kwargs "drop_path_rate" = some w ∧ m.kwargs "drop_connect_rate" = Option.none) := by
  obtain ⟨-, rfl⟩ := create_model_ok h
  have hg : (kwargs "drop_connect_rate").getD Val.none = v := by rw [hv]; rfl
  constructor
  · intro hd
    refine ⟨?_, normalize_kwargs_drop_connect env model_name kwargs⟩
    show normalize_kwargs env model_name kwargs "drop_path_rate" = some v
    have hd' : (kwargs "drop_path_rate").getD Val.none = Val.none := by
      rcases hd with h1 | h1 <;> rw [h1] <;> rfl
    rw [normalize_kwargs_dpr, if_pos ⟨by rw [hg]; exact hvn, hd'⟩, hg]
  · intro w hw hwn
    refine ⟨?_, normalize_kwargs_drop_connect env model_name kwargs⟩
    show normalize_kwargs env model_name kwargs "drop_path_rate" = some w
    have hd' : (kwargs "drop_path_rate").getD Val.none = w := by rw [hw]; rfl
    rw [normalize_kwargs_dpr, if_neg (by rw [hd']; exact fun hc => hwn hc.2),
      if_neg (by rw [hw]; simp [hwn]), hw]

/-- Witness for C4: `drop_connect_rate = 2` with no `drop_path_rate`
migrates to `drop_path_rate = 2` and disappears itself. -/
theorem claim_C4_witness :
    normalize_kwargs ⟨["m"], [], 1⟩ "m"
        (Kwargs.empty.set "drop_connect_rate" (Val.vnum 2)) "drop_path_rate" =
      some (Val.vnum 2) ∧
    normalize_kwargs ⟨["m"], [], 1⟩ "m"
        (Kwargs.empty.set "drop_connect_rate" (Val.vnum 2)) "drop_connect_rate" =
      Option.none :=
  (claim_C4 ⟨["m"], [], 1⟩ "m" false 1000 3 "" Option.none Option.none Option.none
    (Kwargs.empty.set "drop_connect_rate" (Val.vnum 2))
    { entrypoint := "m"
      pretrained := false
      num_classes := 1000
      in_chans := 3
      kwargs := normalize_kwargs ⟨["m"], [], 1⟩ "m"
        (Kwargs.empty.set "drop_connect_rate" (Val.vnum 2))
      scriptable := Option.none
      exportable := Option.none
      no_jit := Option.none
      loadedCheckpoint := Option.none }
    (Val.vnum 2) rfl rfl (by decide)).1 (Or.inl rfl)

/-- C5 counterexample: the claim quantifies over every call, but for a
model in the efficientnet / mobilenetv3 modules the requested `act_layer`
value is forwarded to the constructor unresolved, not replaced by
`get_act_layer`. -/
theorem claim_C5_counterexample :
    (create_model ⟨["efficientnet_b0"], ["efficientnet_b0"], 1⟩ "efficientnet_b0" false 1000 3
          "" Option.none Option.none Option.none
          (Kwargs.empty.set "act_layer" (Val.vstr "gelu"))).map
        (fun mc => mc.kwargs "act_layer") =
      Except.ok (some (Val.vstr "gelu")) ∧
    Val.vstr "gelu" ≠ get_act_layer (Val.vstr "gelu") := by
  exact ⟨rfl, by decide⟩

/-- C5 (amended): for every call whose model name is outside the
efficientnet / mobilenetv3 modules, the `act_layer` keyword (defaulting to
`'relu'`) is replaced by `get_act_layer(act_layer)` before the constructor
is invoked; for names in those modules it is passed through unresolved. -/
theorem claim_C5 (env : Env) (model_name : String) (pretrained : Bool)
    (num_classes in_chans : Int) (checkpoint_path : String)
    (scriptable exportable no_jit : Option Bool) (kwargs : Kwargs) (m : ModelCall)
    (h : create_model env model_name pretrained num_classes in_chans checkpoint_path
        scriptable exportable no_jit kwargs = Except.ok m)
    (hnot : env.effModels.contains model_name = false) :
    m.kwargs "act_layer" =
      some (get_act_layer ((kwargs "act_layer").getD (Val.vstr "relu"))) := by
  obtain ⟨-, rfl⟩ := create_model_ok h
  exact normalize_kwargs_act_layer env model_name kwargs hnot

/-- Witness for C5 (amended): with no requested activation, a
non-efficientnet model receives `get_act_layer('relu')`. -/
theorem claim_C5_witness :
    normalize_kwargs ⟨["m"], [], 1⟩ "m" Kwargs.empty "act_layer" =
      some (get_act_layer (Val.vstr "relu")) :=
  claim_C5 ⟨["m"], [], 1⟩ "m" false 1000 3 "" Option.none Option.none Option.none
    Kwargs.empty
    { entrypoint := "m"
      pretrained := false
      num_classes := 1000
      in_chans := 3
      kwargs := normalize_kwargs ⟨["m"], [], 1⟩ "m" Kwargs.empty
      scriptable := Option.none
      exportable := Option.none
      no_jit := Option.none
      loadedCheckpoint := Option.none }
    rfl rfl

/-- C6: `build_backbone` propagates the optimization flags from
`cfg.MODEL.OPT` (`scriptable`, `exportable`, `no_jit` in that order):
`'infer'` gives `(True, False, True)`, `'jit'` gives `(True, False, False)`,
anything else gives all `False`, and `exportable` is always `False`; a
successful call hands exactly these flags to `create_model`. -/
theorem claim_C6 (cfg : Cfg) :
    (cfg.MODEL.OPT = "infer" → build_backbone_flags cfg = (true, false, true)) ∧
    (cfg.MODEL.OPT = "jit" → build_backbone_flags cfg = (true, false, false)) ∧
    (cfg.MODEL.OPT ≠ "infer" → cfg.MODEL.OPT ≠ "jit" →
      build_backbone_flags cfg = (false, false, false)) ∧
    (build_backbone_flags cfg).2.1 = false ∧
    (∀ (env : Env) (m : ModelCall), build_backbone env cfg = Except.ok m →
      m.scriptable = some (build_backbone_flags cfg).1 ∧
      m.exportable = some (build_backbone_flags cfg).2.1 ∧
      m.no_jit = some (build_backbone_flags cfg).2.2) := by
  refine ⟨fun h => ?_, fun h => ?_, fun h1 h2 => ?_, ?_, fun env m hm => ?_⟩
  · unfold build_backbone_flags
    rw [h]
    decide
  · unfold build_backbone_flags
    rw [h, if_neg (by decide)]
    decide
  · unfold build_backbone_flags
    rw [if_neg h1, if_neg h2]
  · unfold build_backbone_flags
    split
    · rfl
    · split <;> rfl
  · simp only [build_backbone] at hm
    obtain ⟨-, rfl⟩ := create_model_ok hm
    exact ⟨rfl, rfl, rfl⟩

/-- Witness for C6: with `OPT = 'infer'` the flags are
`scriptable = True`, `exportable = False`, `no_jit = True`. -/
theorem claim_C6_witness :
    build_backbone_flags ⟨⟨"infer", "m", 1000, "", "BN", "relu", "avg"⟩, ⟨3⟩⟩ =
      (true, false, true) :=
  (claim_C6 ⟨⟨"infer", "m", 1000, "", "BN", "relu", "avg"⟩, ⟨3⟩⟩).1 rfl

/-- C7: no `None`-valued keyword is forwarded to the constructor, while
`pretrained`, `num_classes` and `in_chans` are always passed. -/
theorem claim_C7 (env : Env) (model_name : String) (pretrained : Bool)
    (num_classes in_chans : Int) (checkpoint_path : String)
    (scriptable exportable no_jit : Option Bool) (kwargs : Kwargs) (m : ModelCall)
    (h : create_model env model_name pretrained num_classes in_chans checkpoint_path
        scriptable exportable no_jit kwargs = Except.ok m) :
    (∀ k : String, m.kwargs k ≠ some Val.none) ∧
    m.pretrained = pretrained ∧ m.num_classes = num_classes ∧ m.in_chans = in_chans := by
  obtain ⟨-, rfl⟩ := create_model_ok h
  exact ⟨fun k => normalize_kwargs_not_none env model_name kwargs k, rfl, rfl, rfl⟩

/-- Witness for C7: a `None`-valued extra keyword is not forwarded. -/
theorem claim_C7_witness :
    normalize_kwargs ⟨["m"], [], 1⟩ "m" (Kwargs.empty.set "foo" Val.none) "foo" ≠
      some Val.none :=
  (claim_C7 ⟨["m"], [], 1⟩ "m" false 1000 3 "" Option.none Option.none Option.none
    (Kwargs.empty.set "foo" Val.none)
    { entrypoint := "m"
      pretrained := false
      num_classes := 1000
      in_chans := 3
      kwargs := normalize_kwargs ⟨["m"], [], 1⟩ "m" (Kwargs.empty.set "foo" Val.none)
      scriptable := Option.none
      exportable := Option.none
      no_jit := Option.none
      loadedCheckpoint := Option.none }
    rfl).1 "foo"

/-- C8 counterexample: for a model in the efficientnet / mobilenetv3
modules with `bn_tf = None` supplied, the keyword does not pass through to
the constructor: the generic `None` filter removes it, contradicting the
claimed iff. -/
theorem claim_C8_counterexample :
    (⟨["efficientnet_b0"], ["efficientnet_b0"], 1⟩ : Env).effModels.contains
        "efficientnet_b0" = true ∧
    (Kwargs.empty.set "bn_tf" Val.none) "bn_tf" = some Val.none ∧
    (create_model ⟨["efficientnet_b0"], ["efficientnet_b0"], 1⟩ "efficientnet_b0" false 1000 3
          "" Option.none Option.none Option.none
          (Kwargs.empty.set "bn_tf" Val.none)).map
        (fun mc => mc.kwargs "bn_tf") =
      Except.ok Option.none := by
  exact ⟨by decide, rfl, rfl⟩

/-- C8 (amended): the explicit removal of `bn_tf`, `bn_momentum` and
`bn_eps` happens exactly when the model name is outside the efficientnet /
mobilenetv3 modules (in that case none of the three reaches the
constructor); for names in those modules these keywords, and the unresolved
`act_layer`, pass through to the constructor unchanged provided their
values are not `None`, while `None`-valued entries are removed by the
generic `None` filter. -/
theorem claim_C8 (env : Env) (model_name : String) (pretrained : Bool)
    (num_classes in_chans : Int) (checkpoint_path : String)
    (scriptable exportable no_jit : Option Bool) (kwargs : Kwargs) (m : ModelCall)
    (h : create_model env model_name pretrained num_classes in_chans checkpoint_path
        scriptable exportable no_jit kwargs = Except.ok m) :
    (env.effModels.contains model_name = false →
      m.kwargs "bn_tf" = Option.none ∧ m.kwargs "bn_momentum" = Option.none ∧
        m.kwargs "bn_eps" = Option.none) ∧
    (env.effModels.contains model_name = true →
      ∀ j : String, j = "bn_tf" ∨ j = "bn_momentum" ∨ j = "bn_eps" ∨ j = "act_layer" →
        (∀ v : Val, kwargs j = some v → v ≠ Val.none → m.kwargs j = some v) ∧
        (kwargs j = some Val.none → m.kwargs j = Option.none)) := by
  obtain ⟨-, rfl⟩ := create_model_ok h
  constructor
  · intro hnot
    exact ⟨normalize_kwargs_bn_removed _ _ _ _ hnot (Or.inl rfl),
      normalize_kwargs_bn_removed _ _ _ _ hnot (Or.inr (Or.inl rfl)),
      normalize_kwargs_bn_removed _ _ _ _ hnot (Or.inr (Or.inr rfl))⟩
  · intro hin j hj
    have h1 : j ≠ "norm_layer" := by rcases hj with h | h | h | h <;> subst h <;> decide
    have h2 : j ≠ "drop_connect_rate" := by
      rcases hj with h | h | h | h <;> subst h <;> decide
    have h3 : j ≠ "drop_path_rate" := by rcases hj with h | h | h | h <;> subst h <;> decide
    have hpass := normalize_kwargs_passthrough env model_name kwargs j hin h1 h2 h3
    constructor
    · intro v hv hvn
      show normalize_kwargs env model_name kwargs j = some v
      rw [hpass, hv, if_neg (by simp [hvn])]
    · intro hv
      show normalize_kwargs env model_name kwargs j = Option.none
      rw [hpass, hv, if_pos rfl]

/-- Witness for C8 (amended): a non-`None` `bn_tf` passes through for an
efficientnet-module model. -/
theorem claim_C8_witness :
    normalize_kwargs ⟨["efficientnet_b0"], ["efficientnet_b0"], 1⟩ "efficientnet_b0"
        (Kwargs.empty.set "bn_tf" (Val.vbool true)) "bn_tf" =
      some (Val.vbool true) :=
  ((claim_C8 ⟨["efficientnet_b0"], ["efficientnet_b0"], 1⟩ "efficientnet_b0" false 1000 3 ""
      Option.none Option.none Option.none (Kwargs.empty.set "bn_tf" (Val.vbool true))
      { entrypoint := "efficientnet_b0"
        pretrained := false
        num_classes := 1000
        in_chans := 3
        kwargs := normalize_kwargs ⟨["efficientnet_b0"], ["efficientnet_b0"], 1⟩
          "efficientnet_b0" (Kwargs.empty.set "bn_tf" (Val.vbool true))
        scriptable := Option.none
        exportable := Option.none
        no_jit := Option.none
        loadedCheckpoint := Option.none }
      rfl).2 rfl "bn_tf" (Or.inl rfl)).1 (Val.vbool true) rfl (by decide)

/-- C9: `build_backbone` always requests pretrained weights: the
`pretrained` argument it passes to `create_model` is the constant `True`. -/
theorem claim_C9 (env : Env) (cfg : Cfg) (m : ModelCall)
    (h : build_backbone env cfg = Except.ok m) : m.pretrained = true := by
  simp only [build_backbone] at h
  obtain ⟨-, rfl⟩ := create_model_ok h
  rfl

/-- Witness for C9 at a concrete configuration. -/
theorem claim_C9_witness :
    (build_backbone ⟨["m"], [], 1⟩ ⟨⟨"train", "m", 10, "", "BN", "relu", "avg"⟩, ⟨3⟩⟩).map
        (fun mc => mc.pretrained) =
      Except.ok true := by
  have h : build_backbone ⟨["m"], [], 1⟩ ⟨⟨"train", "m", 10, "", "BN", "relu", "avg"⟩, ⟨3⟩⟩ =
      Except.ok
        { entrypoint := "m"
          pretrained := true
          num_classes := 10
          in_chans := 3
          kwargs := normalize_kwargs ⟨["m"], [], 1⟩ "m"
            (((Kwargs.empty.set "norm_layer" (Val.vstr "BN")).set
                "act_layer" (Val.vstr "relu")).set
              "global_pool" (Val.vstr "avg"))
          scriptable := some false
          exportable := some false
          no_jit := some false
          loadedCheckpoint := Option.none } := rfl
  rw [h]
  exact congrArg Except.ok
    (claim_C9 ⟨["m"], [], 1⟩ ⟨⟨"train", "m", 10, "", "BN", "relu", "avg"⟩, ⟨3⟩⟩ _ h)
